import Mathlib

/-!
Shallow embedding of the shipping-cost engine of `src/backend/server.py`
(Haversine distance, tiered pricing with free radius and minimum floor,
configuration resolution, and the order/checkout call sites).
Python floats are modelled as real numbers; `round(x, 2)` is modelled by
`round2`; Python `math.atan2` is modelled by `atan2` below.
-/

open Real

/-- `math.radians`: degrees to radians. -/
noncomputable def radians (deg : ℝ) : ℝ := deg * (Real.pi / 180)

/-- Python `math.atan2 y x`: two-argument arctangent with the C convention. -/
noncomputable def atan2 (y x : ℝ) : ℝ :=
  if 0 < x then Real.arctan (y / x)
  else if x < 0 then
    (if 0 ≤ y then Real.arctan (y / x) + Real.pi else Real.arctan (y / x) - Real.pi)
  else
    (if 0 < y then Real.pi / 2 else if y < 0 then -(Real.pi / 2) else 0)

/-- Python `round(x, 2)`: round to two decimal places. -/
noncomputable def round2 (x : ℝ) : ℝ := (round (100 * x) : ℤ) / 100

/-- The intermediate `a` of `haversine_distance` in `server.py`:
`a = sin(delta_lat/2)**2 + cos(lat1_rad) * cos(lat2_rad) * sin(delta_lon/2)**2`. -/
noncomputable def haversine_a (lat1 lon1 lat2 lon2 : ℝ) : ℝ :=
  Real.sin (radians (lat2 - lat1) / 2) ^ 2 +
    Real.cos (radians lat1) * Real.cos (radians lat2) *
      Real.sin (radians (lon2 - lon1) / 2) ^ 2

/-- `haversine_distance` from `server.py`: `c = 2 * atan2(sqrt(a), sqrt(1-a))`,
result `R * c` with `R = 6371`. -/
noncomputable def haversine_distance (lat1 lon1 lat2 lon2 : ℝ) : ℝ :=
  let a := haversine_a lat1 lon1 lat2 lon2
  let c := 2 * atan2 (Real.sqrt a) (Real.sqrt (1 - a))
  6371 * c

/-- The `ShippingConfig` pydantic model of `server.py` (all fields defaulted). -/
structure ShippingConfig where
  store_lat : ℝ
  store_lng : ℝ
  free_radius_km : ℝ
  price_per_km : ℝ
  min_shipping_cost : ℝ

/-- The persisted settings record: each field may be absent, in which case
pydantic keeps the model default. -/
structure StoredShippingConfig where
  store_lat : Option ℝ
  store_lng : Option ℝ
  free_radius_km : Option ℝ
  price_per_km : Option ℝ
  min_shipping_cost : Option ℝ

/-- `get_shipping_config` from `server.py`: the stored record (if any) is fed to
`ShippingConfig(**config)`, so present fields override the pydantic defaults and
absent fields keep them; with no record the defaults are returned unchanged. -/
noncomputable def get_shipping_config (stored : Option StoredShippingConfig) : ShippingConfig :=
  match stored with
  | none =>
    { store_lat := -12.1190285, store_lng := -77.0349915,
      free_radius_km := 5.0, price_per_km := 1.50, min_shipping_cost := 5.0 }
  | some s =>
    { store_lat := s.store_lat.getD (-12.1190285)
      store_lng := s.store_lng.getD (-77.0349915)
      free_radius_km := s.free_radius_km.getD 5.0
      price_per_km := s.price_per_km.getD 1.50
      min_shipping_cost := s.min_shipping_cost.getD 5.0 }

/-- The dictionary returned by `calculate_shipping_cost` (the `message` key is a
human-readable presentation string and is not modelled). -/
structure ShippingCostResult where
  distance_km : ℝ
  shipping_cost : ℝ
  is_free : Bool

/-- `calculate_shipping_cost` from `server.py`, parametrised by the resolved
configuration. -/
noncomputable def calculate_shipping_cost (config : ShippingConfig) (lat lng : ℝ) :
    ShippingCostResult :=
  let distance := haversine_distance config.store_lat config.store_lng lat lng
  if distance ≤ config.free_radius_km then
    { distance_km := round2 distance, shipping_cost := 0, is_free := true }
  else
    let extra_km := distance - config.free_radius_km
    let cost := extra_km * config.price_per_km
    let cost2 := if cost < config.min_shipping_cost then config.min_shipping_cost else cost
    { distance_km := round2 distance, shipping_cost := round2 cost2, is_free := false }

/-- The `ShippingAddress` model: `lat`/`lng` are `Optional[float]`. -/
structure ShippingAddress where
  lat : Option ℝ
  lng : Option ℝ

/-- The monetary fields of the order document built by `create_order`. -/
structure OrderTotals where
  subtotal : ℝ
  shipping_cost : ℝ
  total : ℝ

/-- The shipping/total slice of `create_order` in `server.py`.  The guard is
Python truthiness `if shipping_address.lat and shipping_address.lng`, so a
coordinate that is `None` or `0.0` skips the shipping computation. -/
noncomputable def create_order (config : ShippingConfig) (subtotal : ℝ)
    (addr : ShippingAddress) : OrderTotals :=
  let shipping_cost : ℝ :=
    match addr.lat, addr.lng with
    | some la, some ln =>
      if la ≠ 0 ∧ ln ≠ 0 then (calculate_shipping_cost config la ln).shipping_cost else 0
    | _, _ => 0
  { subtotal := round2 subtotal
    shipping_cost := round2 shipping_cost
    total := round2 (subtotal + shipping_cost) }

/-- The totals computed by `create_checkout` in `server.py`. -/
structure CheckoutTotals where
  shipping_cost : ℝ
  total : ℝ

/-- The shipping/total slice of `create_checkout` in `server.py`: same truthiness
guard as `create_order`; the total is not rounded there. -/
noncomputable def create_checkout (config : ShippingConfig) (subtotal : ℝ)
    (addr : ShippingAddress) : CheckoutTotals :=
  let shipping_cost : ℝ :=
    match addr.lat, addr.lng with
    | some la, some ln =>
      if la ≠ 0 ∧ ln ≠ 0 then (calculate_shipping_cost config la ln).shipping_cost else 0
    | _, _ => 0
  { shipping_cost := shipping_cost
    total := subtotal + shipping_cost }

/-! ### Helper lemmas -/

theorem radians_sub (x y : ℝ) : radians (x - y) = radians x - radians y := by
  unfold radians; ring

theorem radians_zero : radians 0 = 0 := by
  unfold radians; ring

theorem atan2_zero_one : atan2 0 1 = 0 := by
  unfold atan2
  rw [if_pos one_pos]
  simp [Real.arctan_zero]

/-- The `a` of Haversine vanishes when the two points coincide. -/
theorem haversine_a_self (x y : ℝ) : haversine_a x y x y = 0 := by
  unfold haversine_a
  simp [radians]

/-- C9: the Haversine distance from any point to itself is zero. -/
theorem haversine_self_eq_zero (x y : ℝ) : haversine_distance x y x y = 0 := by
  simp only [haversine_distance]
  rw [haversine_a_self]
  rw [Real.sqrt_zero, show (1 : ℝ) - 0 = 1 by norm_num, Real.sqrt_one, atan2_zero_one]
  ring

/-- The `a` of Haversine is symmetric in its two endpoints. -/
theorem haversine_a_symm (lat1 lon1 lat2 lon2 : ℝ) :
    haversine_a lat1 lon1 lat2 lon2 = haversine_a lat2 lon2 lat1 lon1 := by
  unfold haversine_a
  have hsin : ∀ s t : ℝ, Real.sin (radians (s - t) / 2) ^ 2
      = Real.sin (radians (t - s) / 2) ^ 2 := by
    intro s t
    have h : radians (s - t) = -radians (t - s) := by unfold radians; ring
    rw [h, neg_div, Real.sin_neg]
    ring
  rw [hsin lat2 lat1, hsin lon2 lon1]
  ring

/-- C8: the Haversine distance is symmetric in its two endpoints. -/
theorem haversine_symm (a b c d : ℝ) :
    haversine_distance a b c d = haversine_distance c d a b := by
  simp only [haversine_distance]
  rw [haversine_a_symm a b c d]

/-- The intermediate `a` of Haversine always lies in `[0, 1]`, with no
restriction on the input coordinates. -/
theorem haversine_a_bounds (lat1 lon1 lat2 lon2 : ℝ) :
    0 ≤ haversine_a lat1 lon1 lat2 lon2 ∧ haversine_a lat1 lon1 lat2 lon2 ≤ 1 := by
  unfold haversine_a
  rw [radians_sub lat2 lat1]
  set u := radians lat1
  set v := radians lat2
  set w := radians (lon2 - lon1)
  have h1 : Real.sin ((v - u) / 2) ^ 2 = 1 / 2 - Real.cos (v - u) / 2 := by
    rw [Real.sin_sq_eq_half_sub, show 2 * ((v - u) / 2) = v - u by ring]
  have h2 : Real.cos u * Real.cos v = (Real.cos (u - v) + Real.cos (u + v)) / 2 := by
    have h := Real.two_mul_cos_mul_cos u v
    linarith
  have hC : Real.cos (u - v) = Real.cos (v - u) := by
    rw [show u - v = -(v - u) by ring, Real.cos_neg]
  rw [h1, h2, hC]
  set s := Real.sin (w / 2) ^ 2 with hs
  have hs0 : 0 ≤ s := sq_nonneg _
  have hs1 : s ≤ 1 := Real.sin_sq_le_one _
  have hc1 : -1 ≤ Real.cos (v - u) := Real.neg_one_le_cos _
  have hc2 : Real.cos (v - u) ≤ 1 := Real.cos_le_one _
  have hd1 : -1 ≤ Real.cos (u + v) := Real.neg_one_le_cos _
  have hd2 : Real.cos (u + v) ≤ 1 := Real.cos_le_one _
  constructor
  · nlinarith [mul_nonneg (sub_nonneg.2 hs1) (sub_nonneg.2 hc2),
      mul_nonneg hs0 (show (0 : ℝ) ≤ 1 + Real.cos (u + v) by linarith)]
  · nlinarith [mul_nonneg (sub_nonneg.2 hs1)
      (show (0 : ℝ) ≤ 1 + Real.cos (v - u) by linarith),
      mul_nonneg hs0 (sub_nonneg.2 hd2)]

/-- `atan2` is non-negative on the closed first quadrant. -/
theorem atan2_nonneg {y x : ℝ} (hy : 0 ≤ y) (hx : 0 ≤ x) : 0 ≤ atan2 y x := by
  unfold atan2
  rcases eq_or_lt_of_le hx with h | h
  · subst h
    simp only [lt_self_iff_false, if_false]
    rcases eq_or_lt_of_le hy with h2 | h2
    · subst h2
      simp
    · rw [if_pos h2]
      positivity
  · rw [if_pos h]
    have h3 := Real.arctan_strictMono.monotone (div_nonneg hy h.le)
    rwa [Real.arctan_zero] at h3

/-- C7: the Haversine computation is total for all real inputs: the intermediate
`a` lies in `[0, 1]`, both square-root arguments are non-negative, and the
returned distance is non-negative. -/
theorem haversine_total_and_nonneg (lat1 lon1 lat2 lon2 : ℝ) :
    0 ≤ haversine_a lat1 lon1 lat2 lon2 ∧
    haversine_a lat1 lon1 lat2 lon2 ≤ 1 ∧
    0 ≤ 1 - haversine_a lat1 lon1 lat2 lon2 ∧
    0 ≤ haversine_distance lat1 lon1 lat2 lon2 := by
  obtain ⟨h0, h1⟩ := haversine_a_bounds lat1 lon1 lat2 lon2
  refine ⟨h0, h1, by linarith, ?_⟩
  simp only [haversine_distance]
  have h := atan2_nonneg (Real.sqrt_nonneg (haversine_a lat1 lon1 lat2 lon2))
    (Real.sqrt_nonneg (1 - haversine_a lat1 lon1 lat2 lon2))
  linarith

/-- Floor-by-branching equals a `max`. -/
theorem ite_lt_eq_max (c m : ℝ) : (if c < m then m else c) = max c m := by
  rcases lt_or_le c m with h | h
  · rw [if_pos h, max_eq_right h.le]
  · rw [if_neg (not_lt.2 h), max_eq_left h]

/-- Closed form for `calculate_shipping_cost`, used by several claims. -/
theorem calculate_shipping_cost_eq (config : ShippingConfig) (lat lng : ℝ) :
    calculate_shipping_cost config lat lng =
      (if haversine_distance config.store_lat config.store_lng lat lng ≤
          config.free_radius_km then
        ⟨round2 (haversine_distance config.store_lat config.store_lng lat lng), 0, true⟩
      else
        ⟨round2 (haversine_distance config.store_lat config.store_lng lat lng),
         round2 (max ((haversine_distance config.store_lat config.store_lng lat lng -
             config.free_radius_km) * config.price_per_km) config.min_shipping_cost),
         false⟩) := by
  simp only [calculate_shipping_cost]
  split
  · rfl
  · rw [ite_lt_eq_max]

/-- `round` is monotone. -/
theorem round_monotone {x y : ℝ} (h : x ≤ y) : round x ≤ round y := by
  rw [round_eq, round_eq]
  exact Int.floor_le_floor (by linarith)

/-- `round2` is monotone. -/
theorem round2_mono {x y : ℝ} (h : x ≤ y) : round2 x ≤ round2 y := by
  unfold round2
  have h2 : round (100 * x) ≤ round (100 * y) := round_monotone (by linarith)
  have h3 : ((round (100 * x) : ℤ) : ℝ) ≤ ((round (100 * y) : ℤ) : ℝ) := by
    exact_mod_cast h2
  linarith

/-- Compute `round` from explicit bounds. -/
theorem round_eq_int (x : ℝ) (n : ℤ) (h1 : (n : ℝ) ≤ x + 1 / 2)
    (h2 : x + 1 / 2 < (n : ℝ) + 1) : round x = n := by
  rw [round_eq]
  rw [Int.floor_eq_iff]
  exact ⟨h1, by linarith⟩

theorem atan2_one_zero : atan2 1 0 = Real.pi / 2 := by
  unfold atan2
  norm_num

theorem atan2_self {x : ℝ} (hx : 0 < x) : atan2 x x = Real.pi / 4 := by
  unfold atan2
  rw [if_pos hx, div_self hx.ne.symm, Real.arctan_one]

/-- Concrete evaluation: the point `(0, 180)` is antipodal to `(0, 0)`. -/
theorem haversine_a_origin_antipode : haversine_a 0 0 0 180 = 1 := by
  have h0 : radians 0 = 0 := radians_zero
  have h180 : radians 180 = Real.pi := by unfold radians; ring
  unfold haversine_a
  rw [show ((0 : ℝ) - 0) = 0 by ring, show ((180 : ℝ) - 0) = 180 by ring, h0, h180]
  norm_num [Real.sin_pi_div_two]

/-- Concrete evaluation: distance from `(0, 0)` to `(0, 180)` is `6371 π`. -/
theorem haversine_origin_antipode : haversine_distance 0 0 0 180 = 6371 * Real.pi := by
  simp only [haversine_distance]
  rw [haversine_a_origin_antipode]
  rw [show (1 : ℝ) - 1 = 0 by ring, Real.sqrt_one, Real.sqrt_zero, atan2_one_zero]
  ring

/-- Concrete evaluation: the `a` for `(0, 0)` to `(0, 90)` is `1 / 2`. -/
theorem haversine_a_origin_quarter : haversine_a 0 0 0 90 = 1 / 2 := by
  have h0 : radians 0 = 0 := radians_zero
  have h90 : radians 90 = Real.pi / 2 := by unfold radians; ring
  unfold haversine_a
  rw [show ((0 : ℝ) - 0) = 0 by ring, show ((90 : ℝ) - 0) = 90 by ring, h0, h90]
  rw [show Real.pi / 2 / 2 = Real.pi / 4 by ring, Real.sin_pi_div_four]
  rw [div_pow, Real.sq_sqrt (by norm_num : (0 : ℝ) ≤ 2)]
  norm_num

/-- Concrete evaluation: distance from `(0, 0)` to `(0, 90)` is `6371 π / 2`. -/
theorem haversine_origin_quarter : haversine_distance 0 0 0 90 = 6371 * (Real.pi / 2) := by
  simp only [haversine_distance]
  rw [haversine_a_origin_quarter]
  rw [show (1 : ℝ) - 1 / 2 = 1 / 2 by norm_num]
  rw [atan2_self (Real.sqrt_pos.mpr (by norm_num))]
  ring

/-! ### Claim theorems -/

/-- C1: for every destination and configuration, `calculate_shipping_cost`
returns the rounded distance with cost `0` and `is_free = true` when the raw
distance is at most `free_radius_km` (equality included), and otherwise the
rounded distance with cost `round(max((d - free_radius_km) * price_per_km,
min_shipping_cost), 2)` and `is_free = false`. -/
theorem calculate_shipping_cost_matches_spec (config : ShippingConfig) (lat lng : ℝ) :
    calculate_shipping_cost config lat lng =
      (if haversine_distance config.store_lat config.store_lng lat lng ≤
          config.free_radius_km then
        ⟨round2 (haversine_distance config.store_lat config.store_lng lat lng), 0, true⟩
      else
        ⟨round2 (haversine_distance config.store_lat config.store_lng lat lng),
         round2 (max ((haversine_distance config.store_lat config.store_lng lat lng -
             config.free_radius_km) * config.price_per_km) config.min_shipping_cost),
         false⟩) :=
  calculate_shipping_cost_eq config lat lng

/-- C6: with a fixed configuration whose rate is non-negative, the shipping cost
is monotone in the distance for destinations beyond the free radius. -/
theorem shipping_cost_monotone (config : ShippingConfig) (lat1 lng1 lat2 lng2 : ℝ)
    (hp : 0 ≤ config.price_per_km)
    (h1 : config.free_radius_km <
      haversine_distance config.store_lat config.store_lng lat1 lng1)
    (h12 : haversine_distance config.store_lat config.store_lng lat1 lng1 <
      haversine_distance config.store_lat config.store_lng lat2 lng2) :
    (calculate_shipping_cost config lat1 lng1).shipping_cost ≤
      (calculate_shipping_cost config lat2 lng2).shipping_cost := by
  rw [calculate_shipping_cost_eq, calculate_shipping_cost_eq]
  rw [if_neg (not_le.2 h1), if_neg (not_le.2 (h1.trans h12))]
  apply round2_mono
  apply max_le_max _ le_rfl
  exact mul_le_mul_of_nonneg_right (by linarith) hp

/-- C6 witness: concrete instance with the store at the origin, free radius 1,
rate 1.5, and destinations at distances `6371 π / 2 < 6371 π`. -/
theorem shipping_cost_monotone_witness :
    (calculate_shipping_cost ⟨0, 0, 1, 3 / 2, 5⟩ 0 90).shipping_cost ≤
      (calculate_shipping_cost ⟨0, 0, 1, 3 / 2, 5⟩ 0 180).shipping_cost := by
  apply shipping_cost_monotone ⟨0, 0, 1, 3 / 2, 5⟩ 0 90 0 180
  · norm_num
  · show (1 : ℝ) < haversine_distance 0 0 0 90
    rw [haversine_origin_quarter]
    nlinarith [Real.pi_gt_three]
  · show haversine_distance 0 0 0 90 < haversine_distance 0 0 0 180
    rw [haversine_origin_quarter, haversine_origin_antipode]
    nlinarith [Real.pi_pos]

/-- C3 (amended): `is_free` is true exactly when the raw (unrounded) distance is
at most `free_radius_km`; the comparison the code performs uses the distance
before rounding, not the reported `distance_km`. -/
theorem is_free_iff_raw_distance_le (config : ShippingConfig) (lat lng : ℝ) :
    ((calculate_shipping_cost config lat lng).is_free = true) ↔
      haversine_distance config.store_lat config.store_lng lat lng ≤
        config.free_radius_km := by
  rw [calculate_shipping_cost_eq]
  by_cases h : haversine_distance config.store_lat config.store_lng lat lng ≤
      config.free_radius_km
  · simp [h]
  · simp [h]

/-- C3 counterexample: with the store at the origin, free radius `10007.54` and
destination `(0, 90)` the raw distance is `6371 π / 2 ≈ 10007.5434`, which
exceeds the radius, so `is_free` is `false`; yet the reported `distance_km`
rounds down to `10007.54`, which is `≤ free_radius_km`. -/
theorem is_free_rounded_mismatch :
    (calculate_shipping_cost ⟨0, 0, 1000754 / 100, 1, 5⟩ 0 90).is_free = false ∧
    (calculate_shipping_cost ⟨0, 0, 1000754 / 100, 1, 5⟩ 0 90).distance_km ≤
      1000754 / 100 := by
  have hgt := Real.pi_gt_d6
  have hlt := Real.pi_lt_d6
  have hnle : ¬ haversine_distance 0 0 0 90 ≤ 1000754 / 100 := by
    rw [haversine_origin_quarter, not_le]
    nlinarith
  have heq : calculate_shipping_cost ⟨0, 0, 1000754 / 100, 1, 5⟩ 0 90 =
      ⟨round2 (haversine_distance 0 0 0 90),
       round2 (max ((haversine_distance 0 0 0 90 - 1000754 / 100) * 1) 5), false⟩ := by
    rw [calculate_shipping_cost_eq]
    exact if_neg hnle
  rw [heq]
  refine ⟨rfl, ?_⟩
  show round2 (haversine_distance 0 0 0 90) ≤ 1000754 / 100
  rw [haversine_origin_quarter]
  unfold round2
  rw [round_eq_int (100 * (6371 * (Real.pi / 2))) 1000754 (by nlinarith) (by nlinarith)]
  norm_num

/-- C2 (amended): when the distance exceeds the free radius and the raw
distance-based cost is below the minimum, the reported cost is
`round(min_shipping_cost, 2)` — the minimum after the output rounding, which
equals `min_shipping_cost` exactly whenever that value has at most two decimal
places (as the default `5.0` does). -/
theorem floor_rounds_min_cost (config : ShippingConfig) (lat lng : ℝ)
    (h1 : config.free_radius_km <
      haversine_distance config.store_lat config.store_lng lat lng)
    (h2 : (haversine_distance config.store_lat config.store_lng lat lng -
        config.free_radius_km) * config.price_per_km < config.min_shipping_cost) :
    (calculate_shipping_cost config lat lng).shipping_cost =
      round2 config.min_shipping_cost := by
  rw [calculate_shipping_cost_eq, if_neg (not_le.2 h1)]
  show round2 (max _ _) = _
  rw [max_eq_right h2.le]

/-- C2 witness: store at origin, free radius 1, rate 0, minimum 5, destination
`(0, 180)`: the hypotheses hold and the cost is `round(5, 2)`. -/
theorem floor_rounds_min_cost_witness :
    (1 : ℝ) < haversine_distance 0 0 0 180 ∧
    (haversine_distance 0 0 0 180 - 1) * 0 < 5 ∧
    (calculate_shipping_cost ⟨0, 0, 1, 0, 5⟩ 0 180).shipping_cost = round2 5 := by
  have h1 : (1 : ℝ) < haversine_distance 0 0 0 180 := by
    rw [haversine_origin_antipode]
    nlinarith [Real.pi_gt_three]
  have h2 : (haversine_distance 0 0 0 180 - 1) * 0 < 5 := by
    rw [mul_zero]
    norm_num
  exact ⟨h1, h2, floor_rounds_min_cost ⟨0, 0, 1, 0, 5⟩ 0 180 h1 h2⟩

/-- C2 counterexample: with free radius 0, rate 0 and minimum `0.001`, the
destination `(0, 180)` is beyond the free radius with raw cost `0 < 0.001`,
but the reported cost is `round(0.001, 2) = 0`, not `0.001` exactly. -/
theorem floor_not_exact_counterexample :
    (0 : ℝ) < haversine_distance 0 0 0 180 ∧
    (haversine_distance 0 0 0 180 - 0) * 0 < 1 / 1000 ∧
    (calculate_shipping_cost ⟨0, 0, 0, 0, 1 / 1000⟩ 0 180).shipping_cost ≠
      1 / 1000 := by
  have hpos : (0 : ℝ) < haversine_distance 0 0 0 180 := by
    rw [haversine_origin_antipode]
    positivity
  have hnle : ¬ haversine_distance 0 0 0 180 ≤ (0 : ℝ) := not_le.2 hpos
  have heq : calculate_shipping_cost ⟨0, 0, 0, 0, 1 / 1000⟩ 0 180 =
      ⟨round2 (haversine_distance 0 0 0 180),
       round2 (max ((haversine_distance 0 0 0 180 - 0) * 0) (1 / 1000)), false⟩ := by
    rw [calculate_shipping_cost_eq]
    exact if_neg hnle
  refine ⟨hpos, by rw [mul_zero]; norm_num, ?_⟩
  rw [heq]
  show round2 (max ((haversine_distance 0 0 0 180 - 0) * 0) (1 / 1000)) ≠ 1 / 1000
  rw [mul_zero, max_eq_right (by norm_num : (0 : ℝ) ≤ 1 / 1000)]
  unfold round2
  rw [round_eq_int (100 * (1 / 1000)) 0 (by norm_num) (by norm_num)]
  norm_num

theorem round2_zero : round2 0 = 0 := by
  unfold round2
  simp

theorem round2_seven : round2 7 = 7 := by
  unfold round2
  rw [round_eq_int (100 * 7) 700 (by norm_num) (by norm_num)]
  norm_num

/-- C4: configuration resolution is total and never fails: with no stored record
it yields the hardcoded defaults; with a stored record each present field
overrides its default and each absent field keeps it. -/
theorem get_shipping_config_resolves :
    get_shipping_config none =
      { store_lat := -12.1190285, store_lng := -77.0349915,
        free_radius_km := 5.0, price_per_km := 1.50, min_shipping_cost := 5.0 } ∧
    ∀ s : StoredShippingConfig, get_shipping_config (some s) =
      { store_lat := s.store_lat.getD (-12.1190285)
        store_lng := s.store_lng.getD (-77.0349915)
        free_radius_km := s.free_radius_km.getD 5.0
        price_per_km := s.price_per_km.getD 1.50
        min_shipping_cost := s.min_shipping_cost.getD 5.0 } :=
  ⟨rfl, fun _ => rfl⟩

/-- C5 (amended): in order creation, when the address carries both coordinates
and both are non-zero, the core cost (rounded once more at the order boundary)
is the order's shipping cost and is folded into the total; when a coordinate is
absent the shipping cost is 0 and the stored total equals the stored subtotal. -/
theorem create_order_shipping_folding :
    (∀ (config : ShippingConfig) (st : ℝ) (addr : ShippingAddress) (la ln : ℝ),
      addr.lat = some la → addr.lng = some ln → la ≠ 0 → ln ≠ 0 →
      (create_order config st addr).shipping_cost =
        round2 ((calculate_shipping_cost config la ln).shipping_cost) ∧
      (create_order config st addr).total =
        round2 (st + (calculate_shipping_cost config la ln).shipping_cost)) ∧
    (∀ (config : ShippingConfig) (st : ℝ) (addr : ShippingAddress),
      addr.lat = none ∨ addr.lng = none →
      (create_order config st addr).shipping_cost = 0 ∧
      (create_order config st addr).total = (create_order config st addr).subtotal) := by
  constructor
  · intro config st addr la ln hla hln h0a h0b
    obtain ⟨olat, olng⟩ := addr
    replace hla : olat = some la := hla
    replace hln : olng = some ln := hln
    subst hla
    subst hln
    simp only [create_order]
    rw [if_pos ⟨h0a, h0b⟩]
    exact ⟨rfl, rfl⟩
  · intro config st addr h
    obtain ⟨olat, olng⟩ := addr
    rcases h with h | h
    · replace h : olat = none := h
      subst h
      cases olng with
      | none => exact ⟨by simp [create_order, round2_zero], by simp [create_order]⟩
      | some v => exact ⟨by simp [create_order, round2_zero], by simp [create_order]⟩
    · replace h : olng = none := h
      subst h
      cases olat with
      | none => exact ⟨by simp [create_order, round2_zero], by simp [create_order]⟩
      | some v => exact ⟨by simp [create_order, round2_zero], by simp [create_order]⟩

/-- C5 witness: both branches of the amended claim instantiated concretely. -/
theorem create_order_shipping_folding_witness :
    ((create_order ⟨0, 0, 0, 0, 7⟩ 10 ⟨some 1, some 1⟩).shipping_cost =
       round2 ((calculate_shipping_cost ⟨0, 0, 0, 0, 7⟩ 1 1).shipping_cost) ∧
     (create_order ⟨0, 0, 0, 0, 7⟩ 10 ⟨some 1, some 1⟩).total =
       round2 (10 + (calculate_shipping_cost ⟨0, 0, 0, 0, 7⟩ 1 1).shipping_cost)) ∧
    ((create_order ⟨0, 0, 0, 0, 7⟩ 10 ⟨none, some 1⟩).shipping_cost = 0 ∧
     (create_order ⟨0, 0, 0, 0, 7⟩ 10 ⟨none, some 1⟩).total =
       (create_order ⟨0, 0, 0, 0, 7⟩ 10 ⟨none, some 1⟩).subtotal) :=
  ⟨create_order_shipping_folding.1 ⟨0, 0, 0, 0, 7⟩ 10 ⟨some 1, some 1⟩ 1 1 rfl rfl
      (by norm_num) (by norm_num),
   create_order_shipping_folding.2 ⟨0, 0, 0, 0, 7⟩ 10 ⟨none, some 1⟩ (Or.inl rfl)⟩

/-- C5 counterexample: an address with both coordinates non-null but latitude
`0.0` skips the core entirely: the order's shipping cost is `0` although the
core, invoked on those coordinates, returns `7`. -/
theorem order_zero_coord_skips_core :
    (create_order ⟨0, 0, 0, 0, 7⟩ 0 ⟨some 0, some 90⟩).shipping_cost = 0 ∧
    (calculate_shipping_cost ⟨0, 0, 0, 0, 7⟩ 0 90).shipping_cost = 7 ∧
    (create_order ⟨0, 0, 0, 0, 7⟩ 0 ⟨some 0, some 90⟩).shipping_cost ≠
      round2 ((calculate_shipping_cost ⟨0, 0, 0, 0, 7⟩ 0 90).shipping_cost) := by
  have ha : (create_order ⟨0, 0, 0, 0, 7⟩ 0 ⟨some 0, some 90⟩).shipping_cost = 0 := by
    have hneg : ¬ ((0 : ℝ) ≠ 0 ∧ (90 : ℝ) ≠ 0) := fun hc => hc.1 rfl
    simp [create_order, hneg, round2_zero]
  have hpos : (0 : ℝ) < haversine_distance 0 0 0 90 := by
    rw [haversine_origin_quarter]
    positivity
  have hb : (calculate_shipping_cost ⟨0, 0, 0, 0, 7⟩ 0 90).shipping_cost = 7 := by
    rw [calculate_shipping_cost_eq, if_neg (not_le.2 hpos)]
    show round2 (max ((haversine_distance 0 0 0 90 - 0) * 0) 7) = 7
    rw [mul_zero, max_eq_right (by norm_num : (0 : ℝ) ≤ 7), round2_seven]
  refine ⟨ha, hb, ?_⟩
  rw [ha, hb, round2_seven]
  norm_num

/-- C10: in both order creation and checkout creation, an address whose latitude
or longitude is present but equal to `0.0` is treated like a missing coordinate:
the shipping cost is `0` and the total collapses to the subtotal. -/
theorem zero_coordinate_treated_as_missing (config : ShippingConfig) (st : ℝ)
    (addr : ShippingAddress) (h : addr.lat = some 0 ∨ addr.lng = some 0) :
    (create_order config st addr).shipping_cost = 0 ∧
    (create_order config st addr).total = (create_order config st addr).subtotal ∧
    (create_checkout config st addr).shipping_cost = 0 ∧
    (create_checkout config st addr).total = st := by
  obtain ⟨olat, olng⟩ := addr
  rcases h with h | h
  · replace h : olat = some 0 := h
    subst h
    cases olng with
    | none =>
      refine ⟨?_, ?_, ?_, ?_⟩ <;> simp [create_order, create_checkout, round2_zero]
    | some v =>
      have hneg : ¬ ((0 : ℝ) ≠ 0 ∧ v ≠ 0) := fun hc => hc.1 rfl
      refine ⟨?_, ?_, ?_, ?_⟩ <;>
        simp [create_order, create_checkout, hneg, round2_zero]
  · replace h : olng = some 0 := h
    subst h
    cases olat with
    | none =>
      refine ⟨?_, ?_, ?_, ?_⟩ <;> simp [create_order, create_checkout, round2_zero]
    | some v =>
      have hneg : ¬ (v ≠ 0 ∧ (0 : ℝ) ≠ 0) := fun hc => hc.2 rfl
      refine ⟨?_, ?_, ?_, ?_⟩ <;>
        simp [create_order, create_checkout, hneg, round2_zero]

/-- C10 witness: concrete order and checkout with latitude present but `0.0`. -/
theorem zero_coordinate_treated_as_missing_witness :
    (create_order ⟨0, 0, 0, 0, 7⟩ 3 ⟨some 0, some 5⟩).shipping_cost = 0 ∧
    (create_order ⟨0, 0, 0, 0, 7⟩ 3 ⟨some 0, some 5⟩).total =
      (create_order ⟨0, 0, 0, 0, 7⟩ 3 ⟨some 0, some 5⟩).subtotal ∧
    (create_checkout ⟨0, 0, 0, 0, 7⟩ 3 ⟨some 0, some 5⟩).shipping_cost = 0 ∧
    (create_checkout ⟨0, 0, 0, 0, 7⟩ 3 ⟨some 0, some 5⟩).total = 3 :=
  zero_coordinate_treated_as_missing ⟨0, 0, 0, 0, 7⟩ 3 ⟨some 0, some 5⟩ (Or.inl rfl)
